import Mathlib

/-
Verification of the session broker in src/appium.js (appium-desktop).

The broker multiplexes front-end windows into automation sessions.  Its
state is a handful of module-level variables:

  - sessionDrivers : object mapping a window id to a driver handle
  - server, serverArgs, logWatcher, batchedLogs : server lifecycle state

The development below embeds each handler of the file as an executable
Lean function.  Handlers that contain asynchronous await points are
embedded as functions producing an explicit list of atomic actions in the
order the JavaScript event loop performs them; in particular the calls
killSession(...) at lines 137 and 157 are NOT awaited by the source, so
their continuations (the delete of the registry entry and the
session-done emission, lines 26-27) run only after the synchronous rest
of the calling handler, and this scheduling is reproduced faithfully.
Outcomes of remote calls (quit, init, method invocations, server
start/close) are supplied by explicit oracle parameters.
-/

/-- Error payloads observable in command responses.  The constructor
typeErrorUndefined models the runtime TypeError raised when a property of
an undefined driver is accessed (lines 179 and 181 with no registered
driver); remoteError is an error propagated from a remote call.  The
constructor noActiveSession is the distinct NoActiveSessionError named by
the specification; no code path of src/appium.js constructs it. -/
inductive ErrDetail
  | typeErrorUndefined
  | remoteError (msg : String)
  | noActiveSession
  deriving DecidableEq, Repr

/-- Events sent to a session window (event.sender.send calls). -/
inductive SessionEv
  | newSessionSuccessful
  | newSessionReady
  | newSessionFailed
  | sessionDone
  | commandResponse (source screenshot : String)
  | commandResponseError (err : ErrDetail)
  deriving DecidableEq, Repr

/-- Atomic actions performed by the session handlers, in event-loop
order: registry writes, remote method calls on a driver handle (none
models the handle being undefined), and event emissions to a requester. -/
inductive Act
  | setDriver (r d : Nat)
  | delDriver (r : Nat)
  | callMethod (d : Option Nat) (name : String)
  | emit (r : Nat) (e : SessionEv)
  deriving DecidableEq, Repr

/-- Effect of one action on the sessionDrivers registry (line 17); only
registry writes change it. -/
def applyAct (st : Nat → Option Nat) : Act → (Nat → Option Nat)
  | Act.setDriver r d => fun x => if x = r then some d else st x
  | Act.delDriver r => fun x => if x = r then none else st x
  | Act.callMethod _ _ => st
  | Act.emit _ _ => st

/-- Registry reached after a list of actions. -/
def applyActs (st : Nat → Option Nat) (acts : List Act) : Nat → Option Nat :=
  acts.foldl applyAct st

/-- Continuation of killSession (lines 25-27) after its awaited quit()
settles: on success delete the mapping and emit session-done; if quit
rejects, the fire-and-forget promise rejects with no handler attached and
neither the delete nor the emission runs. -/
def killSessionContActs (r : Nat) (quitOk : Bool) : List Act :=
  if quitOk then [Act.delDriver r, Act.emit r SessionEv.sessionDone] else []

/-- Trace of the appium-create-new-session handler
(connectCreateNewSession, lines 132-162) for requester r creating driver
newId.  The handler calls killSession at line 137 WITHOUT await, so
killSession runs synchronously up to its await quit() and suspends; the
handler then registers the new driver (line 141), starts init and emits
appium-new-session-successful (lines 151-152), and suspends at await p.
Pending continuations are listed in the order their promise settles,
taken here as: quit of the old driver, then init, then quit of the new
driver (the quit issued by the catch-block killSession at line 157, which
is again not awaited).  quitOk, initOk and quit2Ok are the outcomes of
those three remote calls. -/
def createNewSessionActs (st : Nat → Option Nat) (r newId : Nat)
    (quitOk initOk quit2Ok : Bool) : List Act :=
  match st r with
  | none =>
    [Act.setDriver r newId, Act.callMethod (some newId) "init",
     Act.emit r SessionEv.newSessionSuccessful] ++
    (if initOk then [Act.emit r SessionEv.newSessionReady]
     else [Act.callMethod (some newId) "quit",
           Act.emit r SessionEv.newSessionFailed,
           Act.emit r SessionEv.sessionDone] ++
          killSessionContActs r quit2Ok)
  | some oldId =>
    [Act.callMethod (some oldId) "quit", Act.setDriver r newId,
     Act.callMethod (some newId) "init",
     Act.emit r SessionEv.newSessionSuccessful] ++
    killSessionContActs r quitOk ++
    (if initOk then [Act.emit r SessionEv.newSessionReady]
     else if quitOk then
       [Act.emit r SessionEv.newSessionFailed, Act.emit r SessionEv.sessionDone]
     else
       [Act.callMethod (some newId) "quit",
        Act.emit r SessionEv.newSessionFailed,
        Act.emit r SessionEv.sessionDone] ++
       killSessionContActs r quit2Ok)

/-- Oracle for the remote calls made by the command listener: the result
of the awaited killSession quit (none = resolved), of the named method
invocation (none = resolved), and of the source and takeScreenshot
refresh calls. -/
structure CmdOracle where
  quitRes : Option ErrDetail
  methodRes : Option ErrDetail
  sourceRes : Except ErrDetail String
  screenshotRes : Except ErrDetail String

/-- Refresh step of the command listener (lines 181-183) with the
surrounding catch (lines 186-188): call source(), then takeScreenshot(),
then send the combined response; a rejection at any point is caught and
sent as one error response. -/
def refreshActs (d r : Nat) (o : CmdOracle) : List Act :=
  Act.callMethod (some d) "source" ::
    (match o.sourceRes with
     | Except.error e => [Act.emit r (SessionEv.commandResponseError e)]
     | Except.ok src =>
       Act.callMethod (some d) "takeScreenshot" ::
         (match o.screenshotRes with
          | Except.error e => [Act.emit r (SessionEv.commandResponseError e)]
          | Except.ok scr => [Act.emit r (SessionEv.commandResponse src scr)]))

/-- Trace of the appium-client-command-request handler
(connectClientMethodListener, lines 169-190) for requester r and method
name m.  For m = quit the killSession call IS awaited (line 176), so a
rejected quit is caught by the catch at line 186 and produces an error
response while leaving the entry registered.  For any other m with no
registered driver, the property access on the undefined driver raises a
TypeError that the catch converts to one error response.  For m not equal
to source the named method is invoked first (line 179); the source and
screenshot refresh then runs. -/
def clientCommandActs (st : Nat → Option Nat) (r : Nat) (m : String)
    (o : CmdOracle) : List Act :=
  if m = "quit" then
    match st r with
    | none => []
    | some d =>
      match o.quitRes with
      | none => [Act.callMethod (some d) "quit", Act.delDriver r,
                 Act.emit r SessionEv.sessionDone]
      | some e => [Act.callMethod (some d) "quit",
                   Act.emit r (SessionEv.commandResponseError e)]
  else
    match st r with
    | none => [Act.callMethod none m,
               Act.emit r (SessionEv.commandResponseError ErrDetail.typeErrorUndefined)]
    | some d =>
      if m = "source" then refreshActs d r o
      else
        Act.callMethod (some d) m ::
          (match o.methodRes with
           | some e => [Act.emit r (SessionEv.commandResponseError e)]
           | none => refreshActs d r o)

/-- Registry holding driver 1 for requester 0 and nothing else. -/
def st01 : Nat → Option Nat := fun x => if x = 0 then some 1 else none

/-- Empty registry. -/
def noDriver : Nat → Option Nat := fun _ => none

/-- Oracle in which every remote call succeeds. -/
def trivialOracle : CmdOracle :=
  { quitRes := none, methodRes := none,
    sourceRes := Except.ok "", screenshotRes := Except.ok "" }

/-- A log record as pushed by the installed logHandler (lines 39-41). -/
structure LogRecord where
  level : String
  msg : String
  deriving DecidableEq, Repr

/-- External stimuli of the log aggregator: an append performed by the
logHandler, or a firing of the interval timer installed at line 47. -/
inductive LogOp
  | append (l : LogRecord)
  | tick
  deriving DecidableEq, Repr

/-- All records appended by a stimulus sequence, in emission order. -/
def appendedRecords : List LogOp → List LogRecord
  | [] => []
  | LogOp.append l :: ops => l :: appendedRecords ops
  | LogOp.tick :: ops => appendedRecords ops

/-- Log aggregator (lines 39-41 and 47-52) run over a stimulus sequence
from a given batchedLogs buffer: an append pushes onto the buffer; a tick
with a non-empty buffer sends the whole buffer as one appium-log-line
batch and resets the buffer to empty; a tick with an empty buffer does
nothing.  Returns the delivered batches in delivery order and the final
buffer. -/
def runLog : List LogOp → List LogRecord → List (List LogRecord) × List LogRecord
  | [], buf => ([], buf)
  | LogOp.append l :: ops, buf => runLog ops (buf ++ [l])
  | LogOp.tick :: ops, buf =>
    if buf.isEmpty then runLog ops buf
    else (buf :: (runLog ops []).1, (runLog ops []).2)

/-- Server lifecycle state: the server variable (line 12), the set of
handles actually running, the logWatcher variable (line 14) and the set
of interval timers actually active (identities drawn from nextId, so a
cleared timer can be told apart from a live one). -/
structure SrvState where
  server : Option Nat
  running : List Nat
  logWatcher : Option Nat
  timers : List Nat
  nextId : Nat
  deriving DecidableEq, Repr

/-- Oracle for one start-server request: whether appiumServer resolves,
the message of its rejection otherwise, and whether the best-effort
close in the catch block resolves. -/
structure StartOracle where
  startOk : Bool
  errMsg : String
  closeOk : Bool
  deriving DecidableEq, Repr

/-- Observable steps of the server lifecycle handlers: emissions to the
main window plus the internal timer and close operations. -/
inductive SrvEv
  | startOk
  | startError (msg : String)
  | stopOk
  | stopError (msg : String)
  | timerStarted (t : Nat)
  | timerCleared (t : Option Nat)
  | closeAttempt (h : Option Nat)
  deriving DecidableEq, Repr

/-- Effect of clearInterval(logWatcher) (lines 64 and 77): removes the
timer named by the logWatcher variable from the active timers;
clearInterval on a null handle is a no-op. -/
def clearWatcher (st : SrvState) : List Nat :=
  match st.logWatcher with
  | none => st.timers
  | some t => st.timers.erase t

/-- State-transition part of the start-server handler (connectStartServer,
lines 32-66).  A fresh interval timer is installed unconditionally at
line 47, overwriting the logWatcher variable, before the server is
brought up.  On success the new server handle is stored and
appium-start-ok is sent.  On failure the handler sends
appium-start-error, attempts server.close() on the CURRENT value of the
server variable (which the failed start never assigned, so it is the
previous value, null on a first start) swallowing any error from that
close, and clears the just-created timer via clearInterval(logWatcher). -/
def startServerStep (st : SrvState) (o : StartOracle) : SrvState × List SrvEv :=
  let tid := st.nextId
  let st1 : SrvState :=
    { st with timers := tid :: st.timers, logWatcher := some tid,
              nextId := st.nextId + 1 }
  if o.startOk then
    let sid := st1.nextId
    ({ st1 with server := some sid, running := sid :: st1.running,
                nextId := st1.nextId + 1 },
     [SrvEv.timerStarted tid, SrvEv.startOk])
  else
    let st2 : SrvState :=
      match st1.server, o.closeOk with
      | some h, true => { st1 with running := st1.running.erase h }
      | _, _ => st1
    ({ st2 with timers := clearWatcher st2 },
     [SrvEv.timerStarted tid, SrvEv.startError o.errMsg,
      SrvEv.closeAttempt st1.server, SrvEv.timerCleared (some tid)])

/-- State-transition part of the stop-server handler (connectStopServer,
lines 69-79): await server.close() inside try (a close on a null server
variable raises a TypeError, caught like any close rejection), send
appium-stop-ok on success and appium-stop-error on failure, and in every
branch run clearInterval(logWatcher) afterwards (line 77, outside the
try/catch). -/
def stopServerStep (st : SrvState) (closeOk : Bool) (msg : String) :
    SrvState × List SrvEv :=
  match st.server with
  | none =>
    ({ st with timers := clearWatcher st },
     [SrvEv.closeAttempt none, SrvEv.stopError "TypeError",
      SrvEv.timerCleared st.logWatcher])
  | some h =>
    if closeOk then
      ({ st with running := st.running.erase h, timers := clearWatcher st },
       [SrvEv.closeAttempt (some h), SrvEv.stopOk,
        SrvEv.timerCleared st.logWatcher])
    else
      ({ st with timers := clearWatcher st },
       [SrvEv.closeAttempt (some h), SrvEv.stopError msg,
        SrvEv.timerCleared st.logWatcher])

/-- Initial server lifecycle state (lines 12-15). -/
def srvInit : SrvState :=
  { server := none, running := [], logWatcher := none, timers := [], nextId := 0 }

/-- Oracle of a fully successful start. -/
def okOracle : StartOracle := { startOk := true, errMsg := "", closeOk := true }

/-- Oracle of a failed start. -/
def failOracle : StartOracle := { startOk := false, errMsg := "boom", closeOk := true }

/-- Server state after one successful start: server handle 1 running,
timer 0 active and stored in logWatcher. -/
def srvRunning : SrvState :=
  { server := some 1, running := [1], logWatcher := some 0, timers := [0], nextId := 2 }

/-- The args object passed to the start-server handler, as a record:
the defaultCapabilities mapping (none models the key being absent), the
logHandler and throwInsteadOfExit members added by the handler, and port
as a representative untouched member. -/
structure ArgsObj where
  defaultCapabilities : Option (List (String × String))
  logHandler : Bool
  throwInsteadOfExit : Bool
  port : Nat
  deriving DecidableEq, Repr

/-- Heap of args objects addressed by reference, plus the serverArgs
variable (line 13) holding a reference.  Aliasing between the caller and
the broker is observable through shared addresses. -/
structure StartEnv where
  heap : Nat → ArgsObj
  serverArgsRef : Option Nat

/-- Pointwise update of the object stored at address a. -/
def heapUpdate (h : Nat → ArgsObj) (a : Nat) (f : ArgsObj → ArgsObj) :
    Nat → ArgsObj :=
  fun x => if x = a then f (h x) else h x

/-- Argument phase of the start-server handler (lines 35-44 and 56):
every statement mutates the caller-supplied object through its reference
a.  When args.defaultCapabilities is present and empty the key is deleted
(lines 35-38); args.logHandler (line 39) and args.throwInsteadOfExit
(line 44) are then set on the same object; finally serverArgs is assigned
that same reference (line 56), not a copy. -/
def startServerArgsPhase (env : StartEnv) (a : Nat) : StartEnv :=
  let h1 := if (env.heap a).defaultCapabilities = some [] then
      heapUpdate env.heap a (fun ob => { ob with defaultCapabilities := none })
    else env.heap
  let h2 := heapUpdate h1 a (fun ob => { ob with logHandler := true })
  let h3 := heapUpdate h2 a (fun ob => { ob with throwInsteadOfExit := true })
  { heap := h3, serverArgsRef := some a }

/-- Heap whose every address holds an args object with an empty
defaultCapabilities mapping and neither added member. -/
def argEnv0 : StartEnv :=
  { heap := fun _ => { defaultCapabilities := some [], logHandler := false,
                       throwInsteadOfExit := false, port := 4723 },
    serverArgsRef := none }

/-- Appending one more append stimulus extends the final buffer and
leaves the delivered batches unchanged. -/
theorem runLog_snoc_append (ops : List LogOp) (l : LogRecord) :
    ∀ buf, runLog (ops ++ [LogOp.append l]) buf =
      ((runLog ops buf).1, (runLog ops buf).2 ++ [l]) := by
  induction ops with
  | nil => intro buf; rfl
  | cons op ops ih =>
    intro buf
    cases op with
    | append l2 => simpa [runLog] using ih (buf ++ [l2])
    | tick =>
      by_cases hb : buf.isEmpty = true
      · simp [runLog, hb, ih buf]
      · simp [runLog, hb, ih []]

/-- Appending one more tick delivers the final buffer as one batch when
it is non-empty and resets it, and changes nothing when it is empty. -/
theorem runLog_snoc_tick (ops : List LogOp) :
    ∀ buf, runLog (ops ++ [LogOp.tick]) buf =
      (if (runLog ops buf).2.isEmpty then runLog ops buf
       else ((runLog ops buf).1 ++ [(runLog ops buf).2], [])) := by
  induction ops with
  | nil =>
    intro buf
    by_cases hb : buf.isEmpty = true
    · simp [runLog, hb]
    · simp [runLog, hb]
  | cons op ops ih =>
    intro buf
    cases op with
    | append l => simp [runLog, ih (buf ++ [l])]
    | tick =>
      by_cases hb : buf.isEmpty = true
      · simp [runLog, hb, ih buf]
      · by_cases hp : (runLog ops []).2.isEmpty = true
        · simp [runLog, hb, hp, ih []]
        · simp [runLog, hb, hp, ih []]

/-- The delivered batches followed by the final buffer are exactly the
appended records, in order. -/
theorem runLog_join (ops : List LogOp) :
    ∀ buf, (runLog ops buf).1.flatten ++ (runLog ops buf).2 =
      buf ++ appendedRecords ops := by
  induction ops with
  | nil => intro buf; simp [runLog, appendedRecords]
  | cons op ops ih =>
    intro buf
    cases op with
    | append l => simp [runLog, appendedRecords, ih (buf ++ [l])]
    | tick =>
      by_cases hb : buf.isEmpty = true
      · have hbe : buf = [] := by simpa using hb
        subst hbe
        simpa [runLog, appendedRecords] using ih []
      · simp [runLog, hb, appendedRecords, ih []]

/-- Every delivered batch is non-empty. -/
theorem runLog_batches_nonempty (ops : List LogOp) :
    ∀ buf, ((runLog ops buf).1.all fun b => !b.isEmpty) = true := by
  induction ops with
  | nil => intro buf; rfl
  | cons op ops ih =>
    intro buf
    cases op with
    | append l => simp [runLog, ih (buf ++ [l])]
    | tick =>
      by_cases hb : buf.isEmpty = true
      · simp [runLog, hb, ih buf]
      · have hb' : buf.isEmpty = false := by simpa using hb
        simp [runLog, hb', ih []]

/-- Claim C4: over any sequence of appends interleaved with flush ticks,
each delivered log batch is exactly the concatenation, in emission order,
of the records appended since the previous non-empty flush (an append
extends the pending buffer; a tick on a non-empty buffer delivers that
whole buffer as one batch and clears it), a tick on an empty buffer
delivers no event at all, the batches and the remaining buffer together
exhaust the appended records in order, and no delivered batch is empty. -/
theorem logAggregator_batches (ops : List LogOp) (l : LogRecord) :
    runLog (ops ++ [LogOp.append l]) [] =
      ((runLog ops []).1, (runLog ops []).2 ++ [l]) ∧
    runLog (ops ++ [LogOp.tick]) [] =
      (if (runLog ops []).2.isEmpty then runLog ops []
       else ((runLog ops []).1 ++ [(runLog ops []).2], [])) ∧
    (runLog ops []).1.flatten ++ (runLog ops []).2 = appendedRecords ops ∧
    ((runLog ops []).1.all fun b => !b.isEmpty) = true :=
  ⟨runLog_snoc_append ops l [], runLog_snoc_tick ops [],
   by simpa using runLog_join ops [], runLog_batches_nonempty ops []⟩

/-- Claim C1 (code bug witnessed): requester 0 already holds driver 1 and
issues appium-create-new-session creating driver 2, with both the quit of
the old driver and the init of the new driver succeeding.  Because
killSession at line 137 is not awaited, the new driver is registered
(setDriver, second action) BEFORE the old entry is removed; the deferred
removal (fifth action) then deletes the new driver from the registry and
emits session-done, so after a fully successful creation the requester
has no registered session at all.  The claim that the existing entry is
destroyed before the new adapter is registered is false of the code. -/
theorem createNewSession_overwrite_eval :
    createNewSessionActs st01 0 2 true true true =
      [Act.callMethod (some 1) "quit", Act.setDriver 0 2,
       Act.callMethod (some 2) "init", Act.emit 0 SessionEv.newSessionSuccessful,
       Act.delDriver 0, Act.emit 0 SessionEv.sessionDone,
       Act.emit 0 SessionEv.newSessionReady] ∧
    applyActs st01 (createNewSessionActs st01 0 2 true true true) 0 = none := by
  constructor <;> rfl

/-- Claim C2 (code bug witnessed): requester 0 with no prior session
creates driver 1 and the init fails while the quit of the failed driver
succeeds.  Because killSession at line 157 is not awaited, the handler
emits appium-new-session-failed and appium-session-done before the entry
is deregistered, and the deferred killSession continuation then deletes
the entry and emits a SECOND appium-session-done: two session-done events
instead of exactly new-session-failed followed by one session-done. -/
theorem createNewSession_initFailure_eval :
    createNewSessionActs noDriver 0 1 true false true =
      [Act.setDriver 0 1, Act.callMethod (some 1) "init",
       Act.emit 0 SessionEv.newSessionSuccessful,
       Act.callMethod (some 1) "quit", Act.emit 0 SessionEv.newSessionFailed,
       Act.emit 0 SessionEv.sessionDone, Act.delDriver 0,
       Act.emit 0 SessionEv.sessionDone] ∧
    (createNewSessionActs noDriver 0 1 true false true).count
      (Act.emit 0 SessionEv.sessionDone) = 2 := by
  constructor <;> rfl

/-- Claim C3 counterexample: a command (here click) from requester 0 with
no registered session DOES access the method on the missing handle (the
first action is a call on handle none), and the emitted error is the
TypeError of that access, not a NoActiveSessionError; so the claim that
the dispatcher fails with a NoActiveSessionError without invoking on a
missing handle is false of the code. -/
theorem missingSession_counterexample :
    Act.callMethod none "click" ∈ clientCommandActs noDriver 0 "click" trivialOracle ∧
    Act.emit 0 (SessionEv.commandResponseError ErrDetail.noActiveSession) ∉
      clientCommandActs noDriver 0 "click" trivialOracle := by
  constructor <;> decide

/-- Claim C3 (amended): for every requester r with no SessionEntry and
every non-quit method name m, execute(r, m, args) attempts the method
access on the missing handle, and the resulting runtime TypeError is
caught and delivered as exactly one error response event, without
crashing and without mutating the registry. -/
theorem execute_missing_session (st : Nat → Option Nat) (r : Nat) (m : String)
    (o : CmdOracle) (hd : st r = none) (hm : m ≠ "quit") :
    clientCommandActs st r m o =
      [Act.callMethod none m,
       Act.emit r (SessionEv.commandResponseError ErrDetail.typeErrorUndefined)] ∧
    (∀ x, applyActs st (clientCommandActs st r m o) x = st x) := by
  have h1 : clientCommandActs st r m o =
      [Act.callMethod none m,
       Act.emit r (SessionEv.commandResponseError ErrDetail.typeErrorUndefined)] := by
    unfold clientCommandActs
    rw [if_neg hm, hd]
  exact ⟨h1, by intro x; rw [h1]; rfl⟩

/-- Witness for execute_missing_session at requester 0, method click,
empty registry. -/
theorem execute_missing_session_witness :
    (noDriver 0 = none ∧ ("click" : String) ≠ "quit") ∧
    clientCommandActs noDriver 0 "click" trivialOracle =
      [Act.callMethod none "click",
       Act.emit 0 (SessionEv.commandResponseError ErrDetail.typeErrorUndefined)] :=
  ⟨⟨rfl, by decide⟩,
   (execute_missing_session noDriver 0 "click" trivialOracle rfl (by decide)).1⟩

/-- Claim C7: for a requester r with an active driver d, execute(r,
source, []) performs no named source method invocation before the refresh
step: the trace is exactly one source call, one takeScreenshot call and
one response event carrying the fetched page source and screenshot, so
the remote source call happens exactly once. -/
theorem execute_source_no_duplicate (st : Nat → Option Nat) (r d : Nat)
    (o : CmdOracle) (src scr : String) (hd : st r = some d)
    (hs : o.sourceRes = Except.ok src) (hscr : o.screenshotRes = Except.ok scr) :
    clientCommandActs st r "source" o =
      [Act.callMethod (some d) "source", Act.callMethod (some d) "takeScreenshot",
       Act.emit r (SessionEv.commandResponse src scr)] ∧
    (clientCommandActs st r "source" o).count (Act.callMethod (some d) "source") = 1 ∧
    (clientCommandActs st r "source" o).count
      (Act.emit r (SessionEv.commandResponse src scr)) = 1 := by
  have h1 : clientCommandActs st r "source" o =
      [Act.callMethod (some d) "source", Act.callMethod (some d) "takeScreenshot",
       Act.emit r (SessionEv.commandResponse src scr)] := by
    unfold clientCommandActs
    rw [if_neg (by decide : ("source" : String) ≠ "quit"), hd]
    simp [refreshActs, hs, hscr]
  refine ⟨h1, ?_, ?_⟩ <;> rw [h1] <;>
    simp [List.count_cons, List.count_nil]

/-- Witness for execute_source_no_duplicate at requester 0 with driver 1
and a fully successful oracle. -/
theorem execute_source_no_duplicate_witness :
    (st01 0 = some 1 ∧ trivialOracle.sourceRes = Except.ok "" ∧
     trivialOracle.screenshotRes = Except.ok "") ∧
    clientCommandActs st01 0 "source" trivialOracle =
      [Act.callMethod (some 1) "source", Act.callMethod (some 1) "takeScreenshot",
       Act.emit 0 (SessionEv.commandResponse "" "")] :=
  ⟨⟨rfl, rfl, rfl⟩,
   (execute_source_no_duplicate st01 0 1 trivialOracle "" "" rfl rfl rfl).1⟩

/-- Claim C9: execute(r, quit, []) with a resolving quit: when an entry
exists the trace is exactly the quit call, then the removal of the
mapping, then one session-done event (the quit is awaited before the
mapping is removed); when no entry exists the trace is empty, a silent
no-op.  In both cases the registry afterwards holds no entry for r, and
the number of session-done events is one exactly when an entry existed. -/
theorem execute_quit_spec (st : Nat → Option Nat) (r : Nat) (o : CmdOracle)
    (hq : o.quitRes = none) :
    clientCommandActs st r "quit" o =
      (match st r with
       | none => []
       | some d => [Act.callMethod (some d) "quit", Act.delDriver r,
                    Act.emit r SessionEv.sessionDone]) ∧
    applyActs st (clientCommandActs st r "quit" o) r = none ∧
    (clientCommandActs st r "quit" o).count (Act.emit r SessionEv.sessionDone) =
      (match st r with
       | none => 0
       | some _ => 1) := by
  cases h : st r with
  | none =>
    refine ⟨?_, ?_, ?_⟩
    · unfold clientCommandActs; rw [if_pos rfl, h]
    · unfold clientCommandActs; rw [if_pos rfl, h]
      simpa [applyActs] using h
    · unfold clientCommandActs; rw [if_pos rfl, h]; rfl
  | some d =>
    have h1 : clientCommandActs st r "quit" o =
        [Act.callMethod (some d) "quit", Act.delDriver r,
         Act.emit r SessionEv.sessionDone] := by
      unfold clientCommandActs; rw [if_pos rfl, h, hq]
    refine ⟨h1, ?_, ?_⟩
    · rw [h1]
      show (fun x => if x = r then none else applyActs st [] x) r = none
      simp
    · rw [h1]
      simp [List.count_cons, List.count_nil]

/-- Witness for execute_quit_spec at requester 0 with driver 1 and a
resolving quit. -/
theorem execute_quit_spec_witness :
    trivialOracle.quitRes = none ∧
    clientCommandActs st01 0 "quit" trivialOracle =
      [Act.callMethod (some 1) "quit", Act.delDriver 0,
       Act.emit 0 SessionEv.sessionDone] ∧
    applyActs st01 (clientCommandActs st01 0 "quit" trivialOracle) 0 = none :=
  ⟨rfl, (execute_quit_spec st01 0 trivialOracle rfl).1,
   (execute_quit_spec st01 0 trivialOracle rfl).2.1⟩

/-- Claim C5 counterexample: after two successful start-server requests
from the initial state, both interval timers are still active (timers 0
and 2), so a reachable state has two flush timers running concurrently;
the claim that starting the timer while one is running never yields two
concurrent timers is false of the code. -/
theorem doubleStart_two_timers :
    ((startServerStep (startServerStep srvInit okOracle).1 okOracle).1).timers = [2, 0] ∧
    1 < ((startServerStep (startServerStep srvInit okOracle).1 okOracle).1).timers.length := by
  constructor <;> decide

/-- Claim C5 (amended): the flush-timer start is not idempotent.  Every
start-server request unconditionally installs a fresh interval timer and
overwrites the logWatcher variable with it: on a successful start the new
timer is left running ALONGSIDE every previously running timer, and on a
failed start exactly the just-created timer is cleared again, leaving the
previously running timers untouched. -/
theorem startServer_timer_not_idempotent (st : SrvState) (o : StartOracle) :
    (startServerStep st o).1.timers =
      (if o.startOk then st.nextId :: st.timers else st.timers) ∧
    (startServerStep st o).1.logWatcher = some st.nextId := by
  cases ho : o.startOk with
  | true => exact ⟨by simp [startServerStep, ho], by simp [startServerStep, ho]⟩
  | false =>
    constructor
    · cases hs : st.server with
      | none => simp [startServerStep, ho, hs, clearWatcher]
      | some h =>
        cases hc : o.closeOk <;>
          simp [startServerStep, ho, hs, hc, clearWatcher]
    · cases hs : st.server with
      | none => simp [startServerStep, ho, hs]
      | some h =>
        cases hc : o.closeOk <;> simp [startServerStep, ho, hs, hc]

/-- Claim C6: a stop-server request always runs clearInterval on the
stored flush-timer handle, whether the close succeeds, fails, or the
server variable is null (teardown is unconditional); on a successful
close appium-stop-ok is emitted and on a failed close the failure detail
is emitted. -/
theorem stopServer_teardown (st : SrvState) (closeOk : Bool) (msg : String)
    (t : Nat) (hw : st.logWatcher = some t) (hnd : st.timers.Nodup) :
    t ∉ (stopServerStep st closeOk msg).1.timers ∧
    (stopServerStep st closeOk msg).2 =
      (match st.server with
       | none => [SrvEv.closeAttempt none, SrvEv.stopError "TypeError",
                  SrvEv.timerCleared (some t)]
       | some h =>
         if closeOk then
           [SrvEv.closeAttempt (some h), SrvEv.stopOk, SrvEv.timerCleared (some t)]
         else
           [SrvEv.closeAttempt (some h), SrvEv.stopError msg,
            SrvEv.timerCleared (some t)]) := by
  cases hs : st.server with
  | none =>
    refine ⟨?_, ?_⟩
    · simpa [stopServerStep, hs, clearWatcher, hw] using hnd.not_mem_erase
    · simp [stopServerStep, hs, hw]
  | some h =>
    cases hc : closeOk with
    | true =>
      refine ⟨?_, ?_⟩
      · simpa [stopServerStep, hs, clearWatcher, hw] using hnd.not_mem_erase
      · simp [stopServerStep, hs, hw]
    | false =>
      refine ⟨?_, ?_⟩
      · simpa [stopServerStep, hs, clearWatcher, hw] using hnd.not_mem_erase
      · simp [stopServerStep, hs, hw]

/-- Witness for stopServer_teardown: stopping the running server of
srvRunning with a successful close clears timer 0 and emits
appium-stop-ok. -/
theorem stopServer_teardown_witness :
    (srvRunning.logWatcher = some 0 ∧ srvRunning.timers.Nodup) ∧
    (0 ∉ (stopServerStep srvRunning true "m").1.timers ∧
     (stopServerStep srvRunning true "m").2 =
       [SrvEv.closeAttempt (some 1), SrvEv.stopOk, SrvEv.timerCleared (some 0)]) :=
  ⟨⟨rfl, by decide⟩, stopServer_teardown srvRunning true "m" 0 rfl (by decide)⟩

/-- Claim C8: a start-server request from an idle broker (no server
running, no active timer) whose server bring-up fails emits the failure
detail, attempts a best-effort close of the server variable (null here,
so the close itself raises and is swallowed, producing no further error
event), clears the flush timer it had just started, and leaves no running
server handle and no active interval timer. -/
theorem startServer_failure_clean (st : SrvState) (o : StartOracle)
    (ho : o.startOk = false) (hs : st.server = none) (hr : st.running = [])
    (ht : st.timers = []) :
    (startServerStep st o).1.server = none ∧
    (startServerStep st o).1.running = [] ∧
    (startServerStep st o).1.timers = [] ∧
    (startServerStep st o).2 =
      [SrvEv.timerStarted st.nextId, SrvEv.startError o.errMsg,
       SrvEv.closeAttempt none, SrvEv.timerCleared (some st.nextId)] := by
  refine ⟨?_, ?_, ?_, ?_⟩ <;>
    simp [startServerStep, clearWatcher, ho, hs, hr, ht]

/-- Witness for startServer_failure_clean: a failed first start from the
initial state. -/
theorem startServer_failure_clean_witness :
    (failOracle.startOk = false ∧ srvInit.server = none ∧
     srvInit.running = [] ∧ srvInit.timers = []) ∧
    ((startServerStep srvInit failOracle).1.server = none ∧
     (startServerStep srvInit failOracle).1.running = [] ∧
     (startServerStep srvInit failOracle).1.timers = [] ∧
     (startServerStep srvInit failOracle).2 =
       [SrvEv.timerStarted 0, SrvEv.startError "boom",
        SrvEv.closeAttempt none, SrvEv.timerCleared (some 0)]) :=
  ⟨⟨rfl, rfl, rfl, rfl⟩,
   startServer_failure_clean srvInit failOracle rfl rfl rfl rfl⟩

/-- Claim C10: the start-server argument phase operates on the caller
supplied args object in place, not on a copy: serverArgs afterwards holds
the very reference the caller passed; through that shared reference the
defaultCapabilities key has been deleted exactly when it was present and
empty, the logHandler member and the throwInsteadOfExit flag have been
added, other members (port) are untouched, and objects at every other
address are untouched. -/
theorem startServer_mutates_args (env : StartEnv) (a : Nat) :
    (startServerArgsPhase env a).serverArgsRef = some a ∧
    ((startServerArgsPhase env a).heap a).logHandler = true ∧
    ((startServerArgsPhase env a).heap a).throwInsteadOfExit = true ∧
    ((startServerArgsPhase env a).heap a).defaultCapabilities =
      (if (env.heap a).defaultCapabilities = some [] then none
       else (env.heap a).defaultCapabilities) ∧
    ((startServerArgsPhase env a).heap a).port = (env.heap a).port ∧
    (∀ b, b ≠ a → (startServerArgsPhase env a).heap b = env.heap b) := by
  by_cases hc : (env.heap a).defaultCapabilities = some []
  · refine ⟨rfl, ?_, ?_, ?_, ?_, ?_⟩ <;>
      try simp [startServerArgsPhase, heapUpdate, hc]
    intro b hb
    simp [startServerArgsPhase, heapUpdate, hc, hb]
  · refine ⟨rfl, ?_, ?_, ?_, ?_, ?_⟩ <;>
      try simp [startServerArgsPhase, heapUpdate, hc]
    intro b hb
    simp [startServerArgsPhase, heapUpdate, hc, hb]

/-- Witness for startServer_mutates_args: the object at address 0 of
argEnv0 (empty defaultCapabilities mapping) after the argument phase, and
the untouched object at address 1. -/
theorem startServer_mutates_args_witness :
    (startServerArgsPhase argEnv0 0).serverArgsRef = some 0 ∧
    ((startServerArgsPhase argEnv0 0).heap 0).defaultCapabilities =
      (if (argEnv0.heap 0).defaultCapabilities = some [] then none
       else (argEnv0.heap 0).defaultCapabilities) ∧
    ((1 : Nat) ≠ 0 ∧ (startServerArgsPhase argEnv0 0).heap 1 = argEnv0.heap 1) :=
  ⟨(startServer_mutates_args argEnv0 0).1,
   (startServer_mutates_args argEnv0 0).2.2.2.1,
   by decide,
   (startServer_mutates_args argEnv0 0).2.2.2.2.2 1 (by decide)⟩
